import Mathlib

/-
  Verification development for the RYP-Frontend repository, a browser
  front-end for an event-attendance system.  The definitions below are a
  shallow embedding of the client-side logic of the repository:

  * admin create-event form (manual coordinate entry, local validation);
  * attendee registration wizard (camera capture, location, submission);
  * confirmation screen and its attendance-status poller;
  * the small local-storage hand-off used by the confirmation variants.

  Browser primitives (parseFloat, Date parsing, canvas encoding, fetch,
  MediaStream) are modelled as explicit inputs or small value types; React
  state and effects are modelled as explicit state passing, with effect
  re-runs triggered exactly when the declared dependencies change and with
  closure capture of render-time values made explicit where it matters.
-/

namespace RYP

/-! ## JavaScript number results

A value produced by parseFloat: either NaN, an infinity, or a finite
number (modelled as a rational). -/

inductive JsNum where
  | nan : JsNum
  | posInf : JsNum
  | negInf : JsNum
  | finite : ℚ → JsNum
deriving DecidableEq, Repr

/-- Semantics of the JavaScript comparison x < c for a parseFloat result x
and a finite literal c (NaN compares false; never reached after the NaN
guard in the source). -/
def jsLt : JsNum → ℚ → Bool
  | JsNum.nan, _ => false
  | JsNum.posInf, _ => false
  | JsNum.negInf, _ => true
  | JsNum.finite q, c => decide (q < c)

/-- Semantics of the JavaScript comparison x > c for a parseFloat result x
and a finite literal c. -/
def jsGt : JsNum → ℚ → Bool
  | JsNum.nan, _ => false
  | JsNum.posInf, _ => true
  | JsNum.negInf, _ => false
  | JsNum.finite q, c => decide (c < q)

/-- Numeric value of a finite JsNum (dummy 0 on the non-finite
constructors, which are only reached in branches the range guard has
already excluded). -/
def jsVal : JsNum → ℚ
  | JsNum.finite q => q
  | _ => 0

/-! ## JavaScript string trimming and parseInt -/

/-- Whitespace trimming on both ends (String.prototype.trim and
String.trim), written over character lists so that it evaluates by
reduction. -/
def jsTrim (s : String) : String :=
  String.mk (((s.toList.dropWhile Char.isWhitespace).reverse.dropWhile
    Char.isWhitespace).reverse)

/-! parseInt over a string: leading whitespace is skipped, an optional
sign is consumed, then the longest prefix of digits; NaN (none) when no
digit is found. -/

def leadingDigits (cs : List Char) : Option Nat :=
  let ds := cs.takeWhile Char.isDigit
  if ds.isEmpty then none
  else some (ds.foldl (fun a c => a * 10 + (c.toNat - 48)) 0)

def parseIntJS (s : String) : Option Int :=
  match (jsTrim s).toList with
  | '-' :: rest => (leadingDigits rest).map (fun n => -(n : Int))
  | '+' :: rest => (leadingDigits rest).map (fun n => (n : Int))
  | cs => (leadingDigits cs).map (fun n => (n : Int))

/-! ## Local storage

localStorage modelled as an association list of string keys and values. -/

def Store := List (String × String)

def lookupKey (st : Store) (k : String) : Option String :=
  (st.find? (fun p => p.1 = k)).map Prod.snd

def removeKey (st : Store) (k : String) : Store :=
  st.filter (fun p => p.1 ≠ k)

/-! ## Admin create-event page

Embedding of the create-event screen (src/unnamed/part_000): manual
coordinate entry and the local validation performed by handleSubmit
before any network request. -/

/-- A latitude/longitude pair, as held in the eventLocation state. -/
abbrev GeoLocation := ℚ × ℚ

structure CreateEventState where
  eventLocation : Option GeoLocation
deriving DecidableEq

inductive ManualCoordResult where
  | invalidNumber   -- toast: please enter valid latitude and longitude values
  | outOfRange      -- toast: latitude must be between -90 and 90, ...
  | set             -- toast: manual coordinates have been set
deriving DecidableEq, Repr

/-- handleManualCoordinates from src/unnamed/part_000: the two inputs are
the parseFloat results of the manual latitude and longitude fields.  A NaN
in either field is rejected first; then the range checks
lat < -90 || lat > 90 || lng < -180 || lng > 180 reject; otherwise the
event location is set to the entered pair. -/
def handleManualCoordinates (lat lng : JsNum) (st : CreateEventState) :
    CreateEventState × ManualCoordResult :=
  if lat = JsNum.nan ∨ lng = JsNum.nan then
    (st, ManualCoordResult.invalidNumber)
  else if jsLt lat (-90) ∨ jsGt lat 90 ∨ jsLt lng (-180) ∨ jsGt lng 180 then
    (st, ManualCoordResult.outOfRange)
  else
    ({ st with eventLocation := some (jsVal lat, jsVal lng) }, ManualCoordResult.set)

/-- The form state of the create-event screen at submit time.  The two
date-time values are the results of new Date(date + "T" + time) on the
start and end fields, supplied by the dateVal argument of handleSubmit
(the Date parser is a platform primitive; the date and time inputs of the
form only produce well-formed values). -/
structure CreateForm where
  eventName : String
  eventDesc : String
  eventLocation : Option GeoLocation
  perimeter : String
  startDate : String
  startTime : String
  endDate : String
  endTime : String
deriving DecidableEq

inductive CreateSubmitResult where
  | missingInfo       -- toast: please fill in all fields ...
  | invalidTimeRange  -- toast: end time must be after start time
  | invalidPerimeter  -- toast: perimeter must be between 1 and 10000 meters
  | requestSent       -- apiRequest POST create_event performed
deriving DecidableEq, Repr

/-- handleSubmit from src/unnamed/part_000 up to the point where the
network request is issued; the second component counts network calls.
The emptiness tests mirror the JavaScript falsy checks on the field
values, and the perimeter is validated with parseInt. -/
def handleSubmit (dateVal : String → String → Int) (f : CreateForm) :
    CreateSubmitResult × Nat :=
  if f.eventName = "" ∨ f.eventDesc = "" ∨ f.eventLocation = none ∨
      f.perimeter = "" ∨ f.startDate = "" ∨ f.startTime = "" ∨
      f.endDate = "" ∨ f.endTime = "" then
    (CreateSubmitResult.missingInfo, 0)
  else if dateVal f.endDate f.endTime ≤ dateVal f.startDate f.startTime then
    (CreateSubmitResult.invalidTimeRange, 0)
  else
    match parseIntJS f.perimeter with
    | none => (CreateSubmitResult.invalidPerimeter, 0)
    | some v =>
      if v < 1 ∨ 10000 < v then (CreateSubmitResult.invalidPerimeter, 0)
      else (CreateSubmitResult.requestSent, 1)

/-! ## Attendee registration wizard

Embedding of the registration page
(src/app/events/[eventId]/register/page.tsx): a two-step wizard
(step 1 selfie capture, step 2 location), its camera handling and its
submitAttendance operation. -/

/-- The React state of the registration page that the embedded operations
read or write.  The stream field holds the identifier of the acquired
MediaStream, when one is held. -/
structure RegisterState where
  stream : Option Nat
  photoTaken : Bool
  cameraActive : Bool
  location : Option GeoLocation
  selfieData : Option String
  submitting : Bool
  step : Nat
deriving DecidableEq, Repr

/-- Dimensions reported by the video element at capture time. -/
structure VideoDims where
  width : Nat
  height : Nat
deriving DecidableEq, Repr

inductive TakePhotoResult where
  | noRefs          -- video or canvas ref not mounted: silently does nothing
  | frameNotReady   -- toast: camera not ready, try again in a second
  | encodeError     -- toDataURL threw: toast photo error
  | captured        -- selfie stored, photoTaken set
deriving DecidableEq, Repr

/-- takePhoto from the registration page.  The encoded argument is the
result of canvas.toDataURL (a platform primitive that can throw, hence an
Option).  The dimension test mirrors the falsy check
!video.videoWidth || !video.videoHeight. -/
def takePhoto (video : Option VideoDims) (canvasPresent : Bool)
    (encoded : Option String) (st : RegisterState) :
    RegisterState × TakePhotoResult :=
  match video, canvasPresent with
  | some v, true =>
    if v.width = 0 ∨ v.height = 0 then
      (st, TakePhotoResult.frameNotReady)
    else
      match encoded with
      | some d =>
        ({ st with selfieData := some d, photoTaken := true }, TakePhotoResult.captured)
      | none => (st, TakePhotoResult.encodeError)
  | _, _ => (st, TakePhotoResult.noRefs)

/-- stopCamera from the registration page, as the closure created at a
given render: capturedStream is the value of the stream state variable at
that render (closure capture), live is the set of MediaStreams whose
tracks are currently running.  Stopping detaches the video element, stops
the tracks of the captured stream when one was captured, and resets the
stream and cameraActive state.  The returned triple is
(running streams afterwards, new stream state, new cameraActive state). -/
def stopCamera (capturedStream : Option Nat) (live : List Nat) :
    List Nat × Option Nat × Bool :=
  match capturedStream with
  | some i => (live.erase i, none, false)
  | none => (live, none, false)

/-- The camera-teardown scenario of the registration page: the page mounts
on the capture step, startCamera acquires stream 1 (its tracks start
running and the stream state becomes some 1), and then the component
unmounts.  The unmount cleanup registered by useEffect(() => stopCamera, [])
is the stopCamera closure of the FIRST render, which captured the initial
stream state null, not the stream acquired later.  The value is the list
of streams whose tracks are still running after the unmount cleanup. -/
def mountCaptureThenUnmount : List Nat :=
  let liveAfterAcquire : List Nat := [1]
  let firstRenderStream : Option Nat := none
  (stopCamera firstRenderStream liveAfterAcquire).1

/-! ### Submission -/

/-- A Blob as built by base64ToBlob: a content type and the (decoded)
payload, kept abstractly as the base64 text since the bytes are opaque to
the client. -/
structure JsBlob where
  contentType : String
  payload : String
deriving DecidableEq, Repr

/-- Split a character list at the first occurrence of the separator: the
part before it and the part after it, or none when the separator does not
occur.  This is the first cut of the JavaScript String.split. -/
def firstSplit (sep : List Char) : List Char → Option (List Char × List Char)
  | [] => none
  | c :: rest =>
    if sep.isPrefixOf (c :: rest) then some ([], (c :: rest).drop sep.length)
    else (firstSplit sep rest).map (fun p => (c :: p.1, p.2))

/-- The segment up to the next occurrence of the separator (the whole
rest when the separator does not occur again); together with firstSplit
this yields element [1] of the JavaScript String.split. -/
def segmentBefore (sep : List Char) (cs : List Char) : List Char :=
  match firstSplit sep cs with
  | some (h, _) => h
  | none => cs

/-- base64ToBlob from the registration page: the data URL is split on
";base64,"; with no such marker the base64 payload is undefined and atob
throws (the promise rejects, none); otherwise the content type is element
[1] of splitting the head on ":" and the payload is element [1] of the
marker split, decoded.  Decoding itself is a platform primitive and is
modelled as succeeding, as it does on every canvas.toDataURL output. -/
def base64ToBlob (s : String) : Option JsBlob :=
  match firstSplit ";base64,".toList s.toList with
  | none => none
  | some (p0, rest) =>
    let ct := match firstSplit [':'] p0 with
      | none => ""
      | some (_, t) => String.mk (segmentBefore [':'] t)
    some ⟨ct, String.mk (segmentBefore ";base64,".toList rest)⟩

/-- One entry appended to the multipart FormData: a field name and either
a string value or a blob. -/
inductive FormValue where
  | str : String → FormValue
  | blobv : JsBlob → FormValue
deriving DecidableEq, Repr

def FormEntry := String × FormValue
deriving DecidableEq

/-- An HTTP reply to the submission fetch.  detail carries the error text
derived from the response body on a non-ok reply (errorData.detail, or the
raw text when the body is not JSON); status, message and the data fields
are read from the JSON body of an ok reply. -/
structure HttpResp where
  code : Nat
  detail : String
  status : String
  message : String
  dataName : String
  dataRegNo : String
deriving DecidableEq, Repr

inductive FetchOutcome where
  | netError : FetchOutcome
  | reply : HttpResp → FetchOutcome
deriving DecidableEq, Repr

/-- The error message computed for a non-ok reply: the 404 case overrides
with a fixed text, otherwise the detail from the body with "Server error"
as the fallback for an empty body. -/
def errMsgFor (r : HttpResp) : String :=
  if r.code = 404 then "Event not found. Please check the event ID and try again."
  else if r.detail = "" then "Server error"
  else r.detail

inductive SubmitResult where
  | missingInfo : SubmitResult           -- toast: complete all steps (local)
  | caughtError : String → SubmitResult  -- toast: submission error with message
  | navigated : SubmitResult             -- router.push to the confirmation page
deriving DecidableEq, Repr

/-- Everything observable about one submitAttendance call: the result, the
page state afterwards, the number of fetch calls performed, the multipart
payload sent (when a fetch happened), the query parameters of the
navigation target (when the page navigated), and the writes performed on
localStorage (the function performs none: the result is handed over
through the navigation query string). -/
structure SubmitOut where
  result : SubmitResult
  state : RegisterState
  calls : Nat
  formSent : Option (List FormEntry)
  nav : Option (List (String × String))
  storageWrites : List (String × String)

/-- submitAttendance from the registration page, driven by the outcome of
its single fetch.  Validation checks photoTaken, location and selfieData
(the page has no registration-identifier state at all); then the selfie
data URL is converted to a blob (a rejection lands in the outer catch);
the multipart payload holds event_id, user_lat, user_lng and the selfie
blob; the reply is interpreted as in the source: non-ok with 401 navigates
to the confirmation page with an error query, other non-ok throws into the
catch (error toast, submitting reset), ok with status success or
already_registered navigates with the success query, any other ok status
navigates with an error query. -/
def submitAttendance (eventId : String) (st : RegisterState)
    (resp : FetchOutcome) : SubmitOut :=
  match st.photoTaken, st.location, st.selfieData with
  | true, some loc, some sd =>
    let st1 := { st with submitting := true }
    match base64ToBlob sd with
    | none =>
      ⟨SubmitResult.caughtError "blob conversion failed",
        { st1 with submitting := false }, 0, none, none, []⟩
    | some blob =>
      let eid := jsTrim eventId
      let fd : List FormEntry :=
        [("event_id", FormValue.str eid),
         ("user_lat", FormValue.str (toString loc.1)),
         ("user_lng", FormValue.str (toString loc.2)),
         ("selfie", FormValue.blobv blob)]
      match resp with
      | FetchOutcome.netError =>
        ⟨SubmitResult.caughtError "Failed to fetch",
          { st1 with submitting := false }, 1, some fd, none, []⟩
      | FetchOutcome.reply r =>
        if 200 ≤ r.code ∧ r.code < 300 then
          if r.status = "success" ∨ r.status = "already_registered" then
            ⟨SubmitResult.navigated, st1, 1, some fd,
              some [("status", r.status), ("name", r.dataName),
                    ("regNo", r.dataRegNo), ("message", r.message)], []⟩
          else
            ⟨SubmitResult.navigated, st1, 1, some fd,
              some [("status", "error"),
                    ("message", if r.message = "" then "Unexpected error occurred" else r.message),
                    ("eventId", eid)], []⟩
        else if r.code = 401 then
          ⟨SubmitResult.navigated, st1, 1, some fd,
            some [("status", "error"), ("message", errMsgFor r), ("eventId", eid)], []⟩
        else
          ⟨SubmitResult.caughtError (errMsgFor r),
            { st1 with submitting := false }, 1, some fd, none, []⟩
  | _, _, _ => ⟨SubmitResult.missingInfo, st, 0, none, none, []⟩

/-! ## Confirmation screen storage hand-off

The confirmation-page variants that read a registrationData record
(register/page.tsx second embedded document, src/unnamed/part_003) read
the key once in their effect and delete it in the effect cleanup. -/

/-- The read performed by the confirmation effect. -/
def confirmationRead (store : Store) : Option String :=
  lookupKey store "registrationData"

/-- The effect cleanup: localStorage.removeItem of the record. -/
def confirmationCleanup (store : Store) : Store :=
  removeKey store "registrationData"

/-! ## Attendance-status poller

Embedding of the confirmation page
(src/app/events/[eventId]/confirmation/page.tsx).  Its single effect has
the dependency list [params.eventId, status, pollingCount, toast]: it runs
on mount and again whenever status or pollingCount changes.  The effect
reads the registration number, bails out to an error state when it is
missing, otherwise calls checkAttendanceStatus once and installs a
3-second interval whose callback closes over the status and pollingCount
values of that render.  A response updates status, message and
pollingCount as in checkAttendanceStatus.  Re-renders and effect re-runs
caused by a state update are modelled as happening immediately after the
update; the captured values of the live interval therefore always come
from the latest effect run. -/

inductive PStatus where
  | loading | registered | pending | error
deriving DecidableEq, Repr

inductive PMessage where
  | empty              -- initial ""
  | regMissing         -- registration number not found
  | notFound           -- 404: event not found, check the event ID
  | fetchFailed        -- catch: failed to check attendance status
  | apiMessage         -- data.message from the backend
  | stillProcessingWait  -- still being processed, may take a few moments
  | checkLater         -- still being processed, check your events page later
deriving DecidableEq, Repr

/-- Outcome of one status query.  httpFail covers every path into the
catch block: a non-ok non-404 reply, a network failure, or an unparsable
body.  unknownStatus is an ok reply whose status field is neither
registered nor pending: the source has no branch for it and leaves the
state untouched. -/
inductive PollResult where
  | registered | pending | http404 | httpFail | unknownStatus
deriving DecidableEq, Repr

inductive QOrigin where
  | effectRun | tick
deriving DecidableEq, Repr

/-- Record of one issued status query: who issued it and the status and
pollingCount it was issued under (for a tick, the captured render values
of the interval that fired). -/
structure QueryRecord where
  origin : QOrigin
  qStatus : PStatus
  qCount : Nat
deriving DecidableEq, Repr

structure PollState where
  status : PStatus
  pollingCount : Nat
  message : PMessage
  snapshot : PStatus × Nat          -- effect dependencies at the last effect run
  interval : Option (PStatus × Nat) -- live interval with its captured render values
  inFlight : Nat                    -- status queries issued but not yet resolved
  queries : List QueryRecord        -- log of every query issued
deriving DecidableEq, Repr

/-- The body of the effect, run after the cleanup of the previous run.
With a registration number present it issues one status query and installs
the interval (capturing the current render values); without one it sets
the error state and installs nothing. -/
def runEffectBody (regNo : Bool) (s : PollState) : PollState :=
  if regNo then
    { s with inFlight := s.inFlight + 1,
             queries := s.queries ++ [⟨QOrigin.effectRun, s.status, s.pollingCount⟩],
             interval := some (s.status, s.pollingCount) }
  else
    { s with status := PStatus.error, message := PMessage.regMissing,
             interval := none }

/-- One effect run: record the dependency snapshot, clear the previous
interval (the cleanup), then run the body. -/
def runEffect (regNo : Bool) (s : PollState) : PollState :=
  runEffectBody regNo { s with snapshot := (s.status, s.pollingCount), interval := none }

/-- React re-runs the effect while its dependencies differ from the
snapshot of the last run.  Two runs always reach the fixpoint here (one
when the registration number is present, since that effect body changes
no dependency; two otherwise), so the loop is unrolled twice. -/
def reactSettle (regNo : Bool) (s : PollState) : PollState :=
  if (s.status, s.pollingCount) ≠ s.snapshot then
    if ((runEffect regNo s).status, (runEffect regNo s).pollingCount) ≠
        (runEffect regNo s).snapshot then
      runEffect regNo (runEffect regNo s)
    else runEffect regNo s
  else s

/-- The state updates of checkAttendanceStatus for one response: 404 and
the catch paths set error with their messages; registered stores the
attendee data and the api message; pending keeps polling, overriding the
message once pollingCount exceeds 5, and increments pollingCount; an
unrecognized ok status falls through every branch. -/
def applyResponse (r : PollResult) (s : PollState) : PollState :=
  match r with
  | PollResult.http404 =>
    { s with status := PStatus.error, message := PMessage.notFound }
  | PollResult.httpFail =>
    { s with status := PStatus.error, message := PMessage.fetchFailed }
  | PollResult.registered =>
    { s with status := PStatus.registered, message := PMessage.apiMessage }
  | PollResult.pending =>
    { s with status := PStatus.pending,
             message := if 5 < s.pollingCount then PMessage.stillProcessingWait
                        else PMessage.apiMessage,
             pollingCount := s.pollingCount + 1 }
  | PollResult.unknownStatus => s

/-- External events driving the page: an interval tick, or the resolution
of the oldest outstanding query with a given outcome. -/
inductive PEvent where
  | tick : PEvent
  | resolve : PollResult → PEvent

/-- One event step.  A tick fires the live interval, whose callback tests
the CAPTURED status and pollingCount: while they show loading or pending
and a count below 10 it issues a new query without any check that the
previous one has resolved; at the budget it clears the interval (setting
the check-later message when pending); on a terminal captured status it
just clears the interval.  A resolution applies the response and then lets
React re-run the effect if the dependencies changed. -/
def stepEv (regNo : Bool) (s : PollState) : PEvent → PollState
  | PEvent.tick =>
    match s.interval with
    | none => s
    | some (cs, cc) =>
      if cs = PStatus.loading ∨ cs = PStatus.pending then
        if cc < 10 then
          { s with inFlight := s.inFlight + 1,
                   queries := s.queries ++ [⟨QOrigin.tick, cs, cc⟩] }
        else
          { s with interval := none,
                   message := if cs = PStatus.pending then PMessage.checkLater
                              else s.message }
      else { s with interval := none }
  | PEvent.resolve r =>
    if s.inFlight = 0 then s
    else reactSettle regNo (applyResponse r { s with inFlight := s.inFlight - 1 })

def initPollState : PollState :=
  ⟨PStatus.loading, 0, PMessage.empty, (PStatus.loading, 0), none, 0, []⟩

/-- Mounting the confirmation page: the effect runs once and React settles
any immediate dependency change (only the missing-registration path
changes the state during the run). -/
def mountPoller (regNo : Bool) : PollState :=
  reactSettle regNo (runEffect regNo initPollState)

/-- The poller run on a schedule of external events. -/
def runPoller (regNo : Bool) (events : List PEvent) : PollState :=
  events.foldl (stepEv regNo) (mountPoller regNo)

/-! ## Concrete fixtures used by the counterexamples and witnesses -/

/-- A completed wizard state: selfie taken, location captured, on the
location step. -/
def st0 : RegisterState :=
  { stream := none, photoTaken := true, cameraActive := false,
    location := some ((13.0827 : ℚ), (80.2707 : ℚ)),
    selfieData := some "data:image/jpeg;base64,QUJD",
    submitting := false, step := 2 }

/-- A successful backend reply for the submission. -/
def okResp : FetchOutcome :=
  FetchOutcome.reply ⟨200, "", "success", "ok", "A. Kumar", "FAC123"⟩

/-- An HTTP 403 reply (face verification rejected by the backend). -/
def resp403 : FetchOutcome :=
  FetchOutcome.reply ⟨403, "Face verification failed", "", "", "", ""⟩

/-! ## Theorems -/

/-- C7: a manually entered coordinate pair is accepted as a GeoCoordinate
if and only if both values parse to finite numbers with lat in [-90, 90]
and lng in [-180, 180]; when the pair is rejected the location state is
not set; when accepted, the stored location is exactly the entered pair.
Confirmed against handleManualCoordinates of the create-event screen. -/
theorem C7_manual_coords (lat lng : JsNum) (st : CreateEventState) :
    ((handleManualCoordinates lat lng st).2 = ManualCoordResult.set ↔
      ∃ a b, lat = JsNum.finite a ∧ lng = JsNum.finite b ∧
        -90 ≤ a ∧ a ≤ 90 ∧ -180 ≤ b ∧ b ≤ 180) ∧
    ((handleManualCoordinates lat lng st).2 ≠ ManualCoordResult.set →
      (handleManualCoordinates lat lng st).1 = st) ∧
    (∀ a b, lat = JsNum.finite a → lng = JsNum.finite b →
      (handleManualCoordinates lat lng st).2 = ManualCoordResult.set →
      (handleManualCoordinates lat lng st).1.eventLocation = some (a, b)) := by
  cases lat with
  | nan => simp [handleManualCoordinates]
  | posInf =>
    simp only [handleManualCoordinates, jsLt, jsGt]
    constructor
    · constructor
      · intro h
        split at h <;> simp_all
      · rintro ⟨a, b, h, -⟩
        cases h
    · constructor
      · intro _
        split <;> simp_all
      · rintro a b h
        cases h
  | negInf =>
    simp only [handleManualCoordinates, jsLt, jsGt]
    constructor
    · constructor
      · intro h
        split at h <;> simp_all
      · rintro ⟨a, b, h, -⟩
        cases h
    · constructor
      · intro _
        split <;> simp_all
      · rintro a b h
        cases h
  | finite a =>
    cases lng with
    | nan => simp [handleManualCoordinates]
    | posInf =>
      simp only [handleManualCoordinates, jsLt, jsGt]
      constructor
      · constructor
        · intro h
          simp at h
        · rintro ⟨x, y, -, h, -⟩
          cases h
      · constructor
        · intro _
          split <;> simp_all
        · rintro x y _ h
          cases h
    | negInf =>
      simp only [handleManualCoordinates, jsLt, jsGt]
      constructor
      · constructor
        · intro h
          simp at h
        · rintro ⟨x, y, -, h, -⟩
          cases h
      · constructor
        · intro _
          split <;> simp_all
        · rintro x y _ h
          cases h
    | finite b =>
      simp only [handleManualCoordinates, jsLt, jsGt, jsVal]
      by_cases hr : a < -90 ∨ 90 < a ∨ b < -180 ∨ 180 < b
      · rw [if_neg (by simp), if_pos (by simpa using hr)]
        constructor
        · constructor
          · intro h
            cases h
          · rintro ⟨x, y, hx, hy, h1, h2, h3, h4⟩
            cases hx; cases hy
            rcases hr with h | h | h | h <;> linarith
        · exact ⟨fun _ => rfl, fun x y hx hy h => by cases h⟩
      · push_neg at hr
        obtain ⟨h1, h2, h3, h4⟩ := hr
        rw [if_neg (by simp), if_neg (by simp; constructor <;> [linarith; constructor <;> [linarith; constructor <;> linarith]])]
        refine ⟨⟨fun _ => ⟨a, b, rfl, rfl, by linarith, by linarith, by linarith, by linarith⟩, fun _ => rfl⟩, fun h => absurd rfl h, ?_⟩
        rintro x y hx hy -
        cases hx; cases hy
        rfl

/-- C7 witness: lat=13.0827, lng=80.2707 is accepted; lat=91 is rejected
without setting the location; lng=200 is rejected without setting the
location. -/
theorem C7_manual_coords_witness :
    (handleManualCoordinates (JsNum.finite 13.0827) (JsNum.finite 80.2707) ⟨none⟩).2 =
      ManualCoordResult.set ∧
    ((handleManualCoordinates (JsNum.finite 91) (JsNum.finite 80.2707) ⟨none⟩).2 ≠
      ManualCoordResult.set ∧
     (handleManualCoordinates (JsNum.finite 91) (JsNum.finite 80.2707) ⟨none⟩).1 = ⟨none⟩) ∧
    ((handleManualCoordinates (JsNum.finite 13.0827) (JsNum.finite 200) ⟨none⟩).2 ≠
      ManualCoordResult.set ∧
     (handleManualCoordinates (JsNum.finite 13.0827) (JsNum.finite 200) ⟨none⟩).1 = ⟨none⟩) := by
  have hset := (C7_manual_coords (JsNum.finite 13.0827) (JsNum.finite 80.2707) ⟨none⟩).1
  have h91 := C7_manual_coords (JsNum.finite 91) (JsNum.finite 80.2707) ⟨none⟩
  have h200 := C7_manual_coords (JsNum.finite 13.0827) (JsNum.finite 200) ⟨none⟩
  have hne91 : (handleManualCoordinates (JsNum.finite 91) (JsNum.finite 80.2707) ⟨none⟩).2 ≠
      ManualCoordResult.set := by
    intro h
    obtain ⟨a, b, ha, hb, -, h2, -⟩ := h91.1.mp h
    cases ha
    norm_num at h2
  have hne200 : (handleManualCoordinates (JsNum.finite 13.0827) (JsNum.finite 200) ⟨none⟩).2 ≠
      ManualCoordResult.set := by
    intro h
    obtain ⟨a, b, ha, hb, -, -, -, h4⟩ := h200.1.mp h
    cases hb
    norm_num at h4
  exact ⟨hset.mpr ⟨13.0827, 80.2707, rfl, rfl, by norm_num, by norm_num, by norm_num, by norm_num⟩,
    ⟨hne91, h91.2.1 hne91⟩, ⟨hne200, h200.2.1 hne200⟩⟩

/-- C8: when the video source has not yet reported non-zero width and
height, takePhoto fails with the camera-not-ready toast (FrameNotReady)
and leaves the state unchanged, so no CapturedImage is accepted; and a
capture is accepted only when the source frame had non-zero width and
height, in which case photoTaken is set.  Confirmed against takePhoto of
the registration page. -/
theorem C8_takePhoto (video : Option VideoDims) (canvasPresent : Bool)
    (encoded : Option String) (st : RegisterState) :
    (∀ d, video = some d → canvasPresent = true → (d.width = 0 ∨ d.height = 0) →
      takePhoto video canvasPresent encoded st = (st, TakePhotoResult.frameNotReady)) ∧
    ((takePhoto video canvasPresent encoded st).2 = TakePhotoResult.captured →
      ∃ d, video = some d ∧ d.width ≠ 0 ∧ d.height ≠ 0 ∧
        (takePhoto video canvasPresent encoded st).1.photoTaken = true) := by
  cases video with
  | none => simp [takePhoto]
  | some d =>
    cases canvasPresent with
    | false => simp [takePhoto]
    | true =>
      by_cases hz : d.width = 0 ∨ d.height = 0
      · simp [takePhoto, hz]
      · push_neg at hz
        cases encoded with
        | none => simp [takePhoto, hz.1, hz.2]
        | some data => simp [takePhoto, hz.1, hz.2]

/-- C8 witness: a 0-by-480 frame is refused as not ready with the state
unchanged, and a 640-by-480 frame is accepted with photoTaken set. -/
theorem C8_takePhoto_witness :
    takePhoto (some ⟨0, 480⟩) true (some "d") st0 = (st0, TakePhotoResult.frameNotReady) ∧
    (takePhoto (some ⟨640, 480⟩) true (some "d") st0).1.photoTaken = true := by
  refine ⟨(C8_takePhoto (some ⟨0, 480⟩) true (some "d") st0).1 ⟨0, 480⟩ rfl rfl (Or.inl rfl), ?_⟩
  obtain ⟨d, -, -, -, h⟩ :=
    (C8_takePhoto (some ⟨640, 480⟩) true (some "d") st0).2 (by decide)
  exact h

/-- C9 (code bug): in the teardown scenario the camera is NOT released.
The unmount cleanup registered by useEffect(() => stopCamera, []) is the
stopCamera closure of the first render, which captured the initial stream
state null; the stream acquired afterwards therefore survives the unmount
with its tracks running (first conjunct: stream 1 is still live).  The
remaining conjuncts evaluate the intent: a stopCamera closure holding the
acquired stream would have stopped it, and a repeated release afterwards
is a no-op (release is idempotent). -/
theorem C9_camera_teardown_leak :
    mountCaptureThenUnmount = [1] ∧
    (stopCamera (some 1) [1]).1 = [] ∧
    (stopCamera none (stopCamera (some 1) [1]).1).1 = [] := by
  refine ⟨rfl, rfl, rfl⟩

/-- C10: the admin create-event form validates locally before any network
call: whenever the end date-time is not strictly after the start
date-time, or the perimeter does not parse to an integer in [1, 10000],
handleSubmit performs zero network calls and stops with a local
validation error.  Confirmed against handleSubmit of the create-event
screen (src/unnamed/part_000). -/
theorem C10_create_validation (dateVal : String → String → Int) (f : CreateForm)
    (h : dateVal f.endDate f.endTime ≤ dateVal f.startDate f.startTime ∨
         ∀ v, parseIntJS f.perimeter = some v → v < 1 ∨ 10000 < v) :
    (handleSubmit dateVal f).2 = 0 ∧
    (handleSubmit dateVal f).1 ≠ CreateSubmitResult.requestSent := by
  unfold handleSubmit
  split
  · exact ⟨rfl, by simp⟩
  · rcases h with hd | hp
    · rw [if_pos hd]
      exact ⟨rfl, by simp⟩
    · split
      · exact ⟨rfl, by simp⟩
      · cases hv : parseIntJS f.perimeter with
        | none => simp
        | some v =>
          simp only
          rw [if_pos (hp v hv)]
          exact ⟨rfl, by simp⟩

/-- C10 witness: a fully filled form whose end date-time equals its start
date-time is rejected locally with no network call. -/
theorem C10_create_validation_witness :
    (handleSubmit (fun _ _ => 0)
      ⟨"Tech Meet", "demo", some (13, 80), "100", "2026-01-01", "10:00", "2026-01-01", "10:00"⟩).2 = 0 ∧
    (handleSubmit (fun _ _ => 0)
      ⟨"Tech Meet", "demo", some (13, 80), "100", "2026-01-01", "10:00", "2026-01-01", "10:00"⟩).1 ≠
      CreateSubmitResult.requestSent :=
  C10_create_validation (fun _ _ => 0) _ (Or.inl (by decide))

/-- C1 counterexample: the multipart payload of a submission performed on
a completed draft consists of exactly the fields event_id, user_lat,
user_lng and selfie.  The wizard holds no registration identifier and
appends none, so the claim that the payload contains the registration
identifier is false (its one-call part does hold: calls = 1). -/
theorem C1_payload_cex :
    ((submitAttendance "ev1" st0 okResp).formSent.map (List.map Prod.fst)) =
      some ["event_id", "user_lat", "user_lng", "selfie"] ∧
    (submitAttendance "ev1" st0 okResp).calls = 1 := by
  exact ⟨rfl, rfl⟩

/-- C1 amended: for every submission performed on a completed draft whose
selfie data decodes, the multipart payload contains the event identifier,
the coordinates and the image — and nothing else; in particular no
registration identifier — and exactly one network call is performed. -/
theorem C1_payload_amended (eventId : String) (st : RegisterState)
    (resp : FetchOutcome) (loc : GeoLocation) (sd : String) (b : JsBlob)
    (hp : st.photoTaken = true) (hl : st.location = some loc)
    (hs : st.selfieData = some sd) (hb : base64ToBlob sd = some b) :
    (submitAttendance eventId st resp).calls = 1 ∧
    (submitAttendance eventId st resp).formSent =
      some [("event_id", FormValue.str (jsTrim eventId)),
            ("user_lat", FormValue.str (toString loc.1)),
            ("user_lng", FormValue.str (toString loc.2)),
            ("selfie", FormValue.blobv b)] := by
  unfold submitAttendance
  simp only [hp, hl, hs, hb]
  cases resp with
  | netError => exact ⟨rfl, rfl⟩
  | reply r =>
    simp only
    split_ifs <;> exact ⟨rfl, rfl⟩

/-- C1 witness: the amended payload description evaluated on the concrete
completed draft st0. -/
theorem C1_payload_witness :
    (submitAttendance "ev1" st0 okResp).calls = 1 ∧
    (submitAttendance "ev1" st0 okResp).formSent =
      some [("event_id", FormValue.str "ev1"),
            ("user_lat", FormValue.str (toString ((13.0827 : ℚ)))),
            ("user_lng", FormValue.str (toString ((80.2707 : ℚ)))),
            ("selfie", FormValue.blobv ⟨"image/jpeg", "QUJD"⟩)] :=
  C1_payload_amended "ev1" st0 okResp (13.0827, 80.2707)
    "data:image/jpeg;base64,QUJD" ⟨"image/jpeg", "QUJD"⟩ rfl rfl rfl rfl

/-- C2 counterexample: the wizard state carries no registration
identifier at all (the draft st0 has the image and the coordinates but,
like every draft of this page, no registration identifier), yet invoking
submit issues one network call and does not yield the local
missing-information error — the claim requires zero calls and
IncompleteDraft for any draft with an absent registration identifier. -/
theorem C2_validation_cex :
    (submitAttendance "ev1" st0 okResp).calls = 1 ∧
    (submitAttendance "ev1" st0 okResp).result ≠ SubmitResult.missingInfo := by
  exact ⟨rfl, by decide⟩

/-- C2 amended: for every draft in which the captured image or the
coordinates are absent, invoking submit issues no network call and yields
the local missing-information error, leaving the draft state unchanged;
the draft has no registration identifier field and none is validated. -/
theorem C2_validation_amended (eventId : String) (st : RegisterState)
    (resp : FetchOutcome)
    (h : st.photoTaken = false ∨ st.location = none ∨ st.selfieData = none) :
    (submitAttendance eventId st resp).calls = 0 ∧
    (submitAttendance eventId st resp).result = SubmitResult.missingInfo ∧
    (submitAttendance eventId st resp).state = st := by
  unfold submitAttendance
  rcases hpt : st.photoTaken <;> rcases hloc : st.location with _ | loc <;>
    rcases hsd : st.selfieData with _ | sd <;> simp_all

/-- C2 witness: a draft with coordinates but no captured image is refused
locally with no network call and an unchanged draft. -/
theorem C2_validation_witness :
    (submitAttendance "ev1" { st0 with photoTaken := false } okResp).calls = 0 ∧
    (submitAttendance "ev1" { st0 with photoTaken := false } okResp).result =
      SubmitResult.missingInfo ∧
    (submitAttendance "ev1" { st0 with photoTaken := false } okResp).state =
      { st0 with photoTaken := false } :=
  C2_validation_amended "ev1" { st0 with photoTaken := false } okResp (Or.inl rfl)

/-- C3 counterexample: a submission on the completed draft st0 that
receives HTTP 403 leaves the wizard on step 2 (the location step, not
Capture), keeps photoTaken true and the selfie stored, and does not
re-activate the camera; the only effect is the generic error toast.  The
claim that the state machine returns to Capture with capturedImage
cleared and the camera re-acquired is false. -/
theorem C3_http403_cex :
    (submitAttendance "ev1" st0 resp403).state.step = 2 ∧
    (submitAttendance "ev1" st0 resp403).state.photoTaken = true ∧
    (submitAttendance "ev1" st0 resp403).state.selfieData = st0.selfieData ∧
    (submitAttendance "ev1" st0 resp403).state.cameraActive = false ∧
    (submitAttendance "ev1" st0 resp403).result =
      SubmitResult.caughtError "Face verification failed" := by
  exact ⟨rfl, rfl, rfl, rfl, rfl⟩

/-- C3 amended: whenever a submission on a completed draft receives an
HTTP 403 response, the wizard takes the generic error path: the server
detail is surfaced as an error toast, submitting is reset, no navigation
happens, and the rest of the state — step, captured image, camera — is
unchanged (no return to Capture, no clearing, no re-acquisition). -/
theorem C3_http403_amended (eventId : String) (st : RegisterState)
    (r : HttpResp) (loc : GeoLocation) (sd : String) (b : JsBlob)
    (hp : st.photoTaken = true) (hl : st.location = some loc)
    (hs : st.selfieData = some sd) (hb : base64ToBlob sd = some b)
    (hc : r.code = 403) :
    (submitAttendance eventId st (FetchOutcome.reply r)).result =
      SubmitResult.caughtError (errMsgFor r) ∧
    (submitAttendance eventId st (FetchOutcome.reply r)).state =
      { st with submitting := false } ∧
    (submitAttendance eventId st (FetchOutcome.reply r)).nav = none := by
  unfold submitAttendance
  simp only [hp, hl, hs, hb, hc]
  norm_num

/-- C3 witness: the amended 403 behaviour evaluated on the concrete
completed draft st0 and the concrete 403 reply. -/
theorem C3_http403_witness :
    (submitAttendance "ev1" st0 resp403).result =
      SubmitResult.caughtError (errMsgFor ⟨403, "Face verification failed", "", "", "", ""⟩) ∧
    (submitAttendance "ev1" st0 resp403).state = { st0 with submitting := false } ∧
    (submitAttendance "ev1" st0 resp403).nav = none :=
  C3_http403_amended "ev1" st0 ⟨403, "Face verification failed", "", "", "", ""⟩
    (13.0827, 80.2707) "data:image/jpeg;base64,QUJD" ⟨"image/jpeg", "QUJD"⟩
    rfl rfl rfl rfl rfl

/-- Helper: removing the hand-off key from the store makes a following
lookup of that key observe nothing. -/
theorem lookupKey_removeKey (store : Store) (k : String) :
    lookupKey (removeKey store k) k = none := by
  induction store with
  | nil => rfl
  | cons p t ih =>
    by_cases h : p.1 = k
    · have hr : removeKey (p :: t) k = removeKey t k := by
        simp [removeKey, List.filter, h]
      rw [hr]
      exact ih
    · have hr : removeKey (p :: t) k = p :: removeKey t k := by
        simp [removeKey, List.filter, h]
      rw [hr]
      simp only [lookupKey, List.find?]
      have hfalse : (decide (p.1 = k)) = false := by simp [h]
      rw [hfalse]
      exact ih

/-- C6 counterexample: the submission result produced on the completed
draft st0 is handed to the confirmation screen through the navigation
query string, and the submission performs no storage write at all — in
particular nothing is stored under the registrationData key — so the
claim that the result is handed over through the one-shot storage slot is
false. -/
theorem C6_handoff_cex :
    (submitAttendance "ev1" st0 okResp).storageWrites = [] ∧
    (submitAttendance "ev1" st0 okResp).nav =
      some [("status", "success"), ("name", "A. Kumar"),
            ("regNo", "FAC123"), ("message", "ok")] := by
  exact ⟨rfl, rfl⟩

/-- C6 amended: the registration page hands the submission result to the
confirmation screen through URL query parameters and performs no storage
writes; independently, the confirmation variants that do read a
registrationData record delete it in their effect cleanup, so a read
following the cleanup observes no record (the slot is read at most
once). -/
theorem C6_handoff_amended :
    (∀ (eventId : String) (st : RegisterState) (resp : FetchOutcome),
      (submitAttendance eventId st resp).storageWrites = []) ∧
    (∀ store : Store, confirmationRead (confirmationCleanup store) = none) := by
  constructor
  · intro eventId st resp
    unfold submitAttendance
    rcases st.photoTaken <;> rcases st.location with _ | loc <;>
      rcases st.selfieData with _ | sd
    case true.some.some =>
      simp only
      cases base64ToBlob sd with
      | none => rfl
      | some b =>
        cases resp with
        | netError => rfl
        | reply r =>
          simp only
          split_ifs <;> rfl
    all_goals rfl
  · intro store
    exact lookupKey_removeKey store "registrationData"

/-! ### Poller lemmas -/

/-- Guard satisfied by every query a tick issues: the captured status is
loading or pending and the captured attempt count is below 10. -/
def TickGuard (q : QueryRecord) : Prop :=
  q.origin = QOrigin.tick →
    (q.qStatus = PStatus.loading ∨ q.qStatus = PStatus.pending) ∧ q.qCount < 10

theorem queries_applyResponse (r : PollResult) (s : PollState) :
    (applyResponse r s).queries = s.queries := by
  cases r <;> rfl

theorem tickGuard_runEffect (regNo : Bool) (s : PollState)
    (h : ∀ q ∈ s.queries, TickGuard q) :
    ∀ q ∈ (runEffect regNo s).queries, TickGuard q := by
  unfold runEffect runEffectBody
  split
  · intro q hq
    simp only [List.mem_append, List.mem_singleton] at hq
    rcases hq with hq | rfl
    · exact h q hq
    · intro horig
      cases horig
  · exact h

theorem tickGuard_reactSettle (regNo : Bool) (s : PollState)
    (h : ∀ q ∈ s.queries, TickGuard q) :
    ∀ q ∈ (reactSettle regNo s).queries, TickGuard q := by
  unfold reactSettle
  split
  · split
    · exact tickGuard_runEffect regNo _ (tickGuard_runEffect regNo _ h)
    · exact tickGuard_runEffect regNo _ h
  · exact h

theorem tickGuard_step (regNo : Bool) (s : PollState) (e : PEvent)
    (h : ∀ q ∈ s.queries, TickGuard q) :
    ∀ q ∈ (stepEv regNo s e).queries, TickGuard q := by
  cases e with
  | tick =>
    simp only [stepEv]
    split
    · exact h
    · split
      · next h1 =>
        split
        · next h2 =>
          intro q hq
          simp only [List.mem_append, List.mem_singleton] at hq
          rcases hq with hq | rfl
          · exact h q hq
          · intro _
            exact ⟨h1, h2⟩
        · exact h
      · exact h
  | resolve r =>
    simp only [stepEv]
    split
    · exact h
    · apply tickGuard_reactSettle
      intro q hq
      rw [queries_applyResponse] at hq
      exact h q hq

theorem tickGuard_mount (regNo : Bool) :
    ∀ q ∈ (mountPoller regNo).queries, TickGuard q := by
  unfold mountPoller
  apply tickGuard_reactSettle
  apply tickGuard_runEffect
  intro q hq
  simp [initPollState] at hq

theorem tickGuard_foldl (regNo : Bool) (events : List PEvent) :
    ∀ s : PollState, (∀ q ∈ s.queries, TickGuard q) →
      ∀ q ∈ (events.foldl (stepEv regNo) s).queries, TickGuard q := by
  induction events with
  | nil => intro s h; exact h
  | cons e t ih =>
    intro s h
    exact ih _ (tickGuard_step regNo s e h)

/-- C4 counterexample: a tick that fires while the very first query is
still unresolved issues a second query, so two status queries are
outstanding at once — the claim that at most one status query is
outstanding at any time (a tick being skipped while the previous query
has not resolved) is false: the interval callback never checks whether
the previous query has resolved. -/
theorem C4_poller_cex : (runPoller true [PEvent.tick]).inFlight = 2 := by
  decide

/-- C4 amended: the poller does not bound the number of outstanding
queries (a tick during an unresolved query issues a concurrent one, and
every effect re-run caused by a status or count change issues a further
query, even in a terminal state); what does hold is that every query
issued by an interval tick is issued under a captured status of Loading
or Pending and a captured attempt count below 10 — ticks themselves stop
issuing queries once a terminal state or the budget of 10 is reflected in
the render captured by the live interval. -/
theorem C4_poller_amended (regNo : Bool) (events : List PEvent) :
    ∀ q ∈ (runPoller regNo events).queries, q.origin = QOrigin.tick →
      (q.qStatus = PStatus.loading ∨ q.qStatus = PStatus.pending) ∧ q.qCount < 10 := by
  unfold runPoller
  exact tickGuard_foldl regNo events (mountPoller regNo) (tickGuard_mount regNo)

/-- C4 witness: the tick-issued query of the concrete one-tick schedule
is in the log and satisfies the guard. -/
theorem C4_poller_witness :
    (⟨QOrigin.tick, PStatus.loading, 0⟩ : QueryRecord) ∈ (runPoller true [PEvent.tick]).queries ∧
    ((PStatus.loading = PStatus.loading ∨ PStatus.loading = PStatus.pending) ∧ 0 < 10) := by
  have hm : (⟨QOrigin.tick, PStatus.loading, 0⟩ : QueryRecord) ∈
      (runPoller true [PEvent.tick]).queries := by decide
  exact ⟨hm, C4_poller_amended true [PEvent.tick] _ hm rfl⟩

/-- Invariant of the reachable poller states (with a registration number
present): the live interval, when any, captured exactly the dependency
snapshot of the last effect run, and that snapshot equals the current
status and count. -/
def PollInv (s : PollState) : Prop :=
  (s.interval = none ∨ s.interval = some s.snapshot) ∧
  s.snapshot = (s.status, s.pollingCount)

theorem runEffect_true (s : PollState) :
    runEffect true s =
      { s with snapshot := (s.status, s.pollingCount),
               interval := some (s.status, s.pollingCount),
               inFlight := s.inFlight + 1,
               queries := s.queries ++ [⟨QOrigin.effectRun, s.status, s.pollingCount⟩] } := by
  rfl

theorem reactSettle_true (s : PollState) :
    reactSettle true s =
      if (s.status, s.pollingCount) ≠ s.snapshot then runEffect true s else s := by
  unfold reactSettle
  split
  · rw [if_neg (by rw [runEffect_true]; simp)]
  · rfl

theorem pollInv_runEffect_true (s : PollState) : PollInv (runEffect true s) := by
  rw [runEffect_true]
  exact ⟨Or.inr rfl, rfl⟩

theorem pollInv_reactSettle (s : PollState)
    (h : s.interval = none ∨ s.interval = some s.snapshot) :
    PollInv (reactSettle true s) := by
  rw [reactSettle_true]
  split
  · exact pollInv_runEffect_true s
  · next hne => exact ⟨h, (not_ne_iff.mp hne).symm⟩

theorem pollInv_step (s : PollState) (e : PEvent) (h : PollInv s) :
    PollInv (stepEv true s e) := by
  cases e with
  | tick =>
    simp only [stepEv]
    split
    · exact h
    · split
      · split
        · exact ⟨h.1, h.2⟩
        · exact ⟨Or.inl rfl, h.2⟩
      · exact ⟨Or.inl rfl, h.2⟩
  | resolve r =>
    simp only [stepEv]
    split
    · exact h
    · apply pollInv_reactSettle
      cases r <;> exact h.1

theorem pollInv_mount : PollInv (mountPoller true) := by
  unfold mountPoller
  apply pollInv_reactSettle
  rw [runEffect_true]
  exact Or.inr rfl

theorem pollInv_run (events : List PEvent) : PollInv (runPoller true events) := by
  unfold runPoller
  suffices h : ∀ s, PollInv s → PollInv (events.foldl (stepEv true) s) from
    h _ pollInv_mount
  induction events with
  | nil => intro s h; exact h
  | cons e t ih =>
    intro s h
    exact ih _ (pollInv_step s e h)

/-- Behaviour of one 404 resolution from any invariant-respecting state
with an outstanding query: the status becomes Error with the not-found
message; a tick afterwards issues no query and leaves the in-flight count
alone; and when the status was not already Error, the effect re-run
triggered by the status change issues exactly one further query. -/
theorem http404_step (s : PollState) (hinv : PollInv s) (h : 0 < s.inFlight) :
    (stepEv true s (PEvent.resolve PollResult.http404)).status = PStatus.error ∧
    (stepEv true s (PEvent.resolve PollResult.http404)).message = PMessage.notFound ∧
    (stepEv true (stepEv true s (PEvent.resolve PollResult.http404)) PEvent.tick).queries =
      (stepEv true s (PEvent.resolve PollResult.http404)).queries ∧
    (stepEv true (stepEv true s (PEvent.resolve PollResult.http404)) PEvent.tick).inFlight =
      (stepEv true s (PEvent.resolve PollResult.http404)).inFlight ∧
    (s.status ≠ PStatus.error →
      (stepEv true s (PEvent.resolve PollResult.http404)).queries.length =
        s.queries.length + 1) := by
  have h0 : ¬s.inFlight = 0 := by omega
  have hstep : stepEv true s (PEvent.resolve PollResult.http404) =
      reactSettle true { s with inFlight := s.inFlight - 1,
                                status := PStatus.error,
                                message := PMessage.notFound } := by
    simp only [stepEv]
    rw [if_neg h0]
    rfl
  by_cases hs : s.status = PStatus.error
  · have hcond : ¬(((PStatus.error, s.pollingCount) : PStatus × Nat) ≠ s.snapshot) := by
      rw [hinv.2, hs]
      simp
    have hres : stepEv true s (PEvent.resolve PollResult.http404) =
        { s with inFlight := s.inFlight - 1,
                 status := PStatus.error,
                 message := PMessage.notFound } := by
      rw [hstep, reactSettle_true]
      exact if_neg hcond
    refine ⟨by rw [hres], by rw [hres], ?_, ?_, fun hne => absurd hs hne⟩
    · rw [hres]
      simp only [stepEv]
      rcases hinv.1 with hi | hi
      · simp [hi]
      · rw [hi, hinv.2, hs]
        simp
    · rw [hres]
      simp only [stepEv]
      rcases hinv.1 with hi | hi
      · simp [hi]
      · rw [hi, hinv.2, hs]
        simp
  · have hcond : (((PStatus.error, s.pollingCount) : PStatus × Nat) ≠ s.snapshot) := by
      rw [hinv.2]
      intro heq
      exact hs (congrArg Prod.fst heq).symm
    have hres : stepEv true s (PEvent.resolve PollResult.http404) =
        runEffect true { s with inFlight := s.inFlight - 1,
                                status := PStatus.error,
                                message := PMessage.notFound } := by
      rw [hstep, reactSettle_true]
      exact if_pos hcond
    rw [hres, runEffect_true]
    refine ⟨rfl, rfl, ?_, ?_, fun _ => by simp⟩
    · simp [stepEv]
    · simp [stepEv]

/-- C5 counterexample: with the very first status query resolving as HTTP
404, the poller does set Error with the not-found message, but the status
change re-runs the effect, whose first action issues a further status
query: the log then holds two queries, refuting the claim that no further
status queries are issued after a 404. -/
theorem C5_http404_cex :
    (runPoller true [PEvent.resolve PollResult.http404]).status = PStatus.error ∧
    (runPoller true [PEvent.resolve PollResult.http404]).message = PMessage.notFound ∧
    (runPoller true [PEvent.resolve PollResult.http404]).queries.length = 2 := by
  decide

/-- C5 amended: when a status poll receives an HTTP 404 response, the
poller transitions directly to the Error state with the not-found
message; the status change re-runs the effect, which issues exactly one
further query (none when the status already was Error), and interval
ticks thereafter issue no further status queries. -/
theorem C5_http404_amended (events : List PEvent)
    (h : 0 < (runPoller true events).inFlight) :
    (stepEv true (runPoller true events) (PEvent.resolve PollResult.http404)).status =
      PStatus.error ∧
    (stepEv true (runPoller true events) (PEvent.resolve PollResult.http404)).message =
      PMessage.notFound ∧
    (stepEv true (stepEv true (runPoller true events) (PEvent.resolve PollResult.http404))
        PEvent.tick).queries =
      (stepEv true (runPoller true events) (PEvent.resolve PollResult.http404)).queries ∧
    (stepEv true (stepEv true (runPoller true events) (PEvent.resolve PollResult.http404))
        PEvent.tick).inFlight =
      (stepEv true (runPoller true events) (PEvent.resolve PollResult.http404)).inFlight ∧
    ((runPoller true events).status ≠ PStatus.error →
      (stepEv true (runPoller true events) (PEvent.resolve PollResult.http404)).queries.length =
        (runPoller true events).queries.length + 1) :=
  http404_step (runPoller true events) (pollInv_run events) h

/-- C5 witness: the amended 404 behaviour on the empty schedule, where
the mount query is outstanding. -/
theorem C5_http404_witness :
    (stepEv true (runPoller true []) (PEvent.resolve PollResult.http404)).status =
      PStatus.error ∧
    (stepEv true (runPoller true []) (PEvent.resolve PollResult.http404)).message =
      PMessage.notFound ∧
    (stepEv true (stepEv true (runPoller true []) (PEvent.resolve PollResult.http404))
        PEvent.tick).queries =
      (stepEv true (runPoller true []) (PEvent.resolve PollResult.http404)).queries ∧
    (stepEv true (stepEv true (runPoller true []) (PEvent.resolve PollResult.http404))
        PEvent.tick).inFlight =
      (stepEv true (runPoller true []) (PEvent.resolve PollResult.http404)).inFlight ∧
    ((runPoller true []).status ≠ PStatus.error →
      (stepEv true (runPoller true []) (PEvent.resolve PollResult.http404)).queries.length =
        (runPoller true []).queries.length + 1) :=
  C5_http404_amended [] (by decide)

end RYP
